import Mathlib

/-!
Verification development for the sora2api registration services.

The definitions below are shallow embeddings, translated function by
function from the Python sources:

  * src/services/tempmail_service.py  (TempMailService)
  * src/services/sms_service.py       (GrizzlySMSService)
  * src/services/register_service.py  (OpenAIRegister._handle_phone_verification)
  * src/services/register_flow.py     (RegisterFlowService.register_one)

Effectful code (HTTP calls, browser interaction, timers) is embedded by
passing the environment's behaviour explicitly: each external call reads
its response from an oracle function, and every provider request issued
is accumulated in an explicit trace.  Character classes of the Python
regular expressions are modelled over their ASCII ranges (all inputs the
claims quantify over, and all codes the provider produces, are ASCII).
-/

namespace Sora2

/-! ## Character classes used by `extract_code_from_content`
(`tempmail_service.py`, lines 122-145).  `\d`, `\s` and word characters
are modelled over ASCII, matching Python's behaviour on ASCII text. -/

/-- Model of the regex class `\d` (ASCII digits). -/
def isDigitCh (c : Char) : Bool :=
  c == '0' || c == '1' || c == '2' || c == '3' || c == '4' ||
  c == '5' || c == '6' || c == '7' || c == '8' || c == '9'

/-- Model of the regex class `\s` (ASCII whitespace). -/
def isSpaceCh (c : Char) : Bool :=
  c == ' ' || c == '\t' || c == '\n' || c == '\r' || c == '\x0b' || c == '\x0c'

/-- A word character, for the regex boundary `\b` (ASCII). -/
def isWordCh (c : Char) : Bool := c.isAlphanum || c == '_'

/-- The character class `[:\s]` used by the separator parts of the patterns. -/
def isSepCh (c : Char) : Bool := c == ':' || isSpaceCh c

/-- Case-insensitive literal prefix test (the patterns are compiled with
`re.IGNORECASE`). -/
def ciPref : List Char → List Char → Bool
  | [], _ => true
  | _ :: _, [] => false
  | a :: as, b :: bs => (a.toLower == b.toLower) && ciPref as bs

/-- Match `(\d{6})` at the current position: six digit characters
(a seventh digit after them is allowed, as in the Python patterns). -/
def take6 : List Char → Option (List Char)
  | a :: b :: c :: d :: e :: f :: _ =>
    if isDigitCh a && isDigitCh b && isDigitCh c && isDigitCh d &&
       isDigitCh e && isDigitCh f then
      some [a, b, c, d, e, f]
    else none
  | _ => none

/-- How a keyword pattern separates the keyword from the digits:
no separator at all (`code is (\d{6})`), one or more `[:\s]`
(`code[:\s]+(\d{6})`), or zero or more (`验证码[:\s]*(\d{6})`). -/
inductive SepMode
  | noSep
  | sepPlus
  | sepStar
deriving DecidableEq, Repr

/-- Match a keyword pattern at the current position.  Because `[:\s]` and
`\d` are disjoint classes, the greedy maximal separator run is exactly
what Python's backtracking engine matches. -/
def matchKwAt (lit : List Char) (m : SepMode) (l : List Char) : Option (List Char) :=
  if ciPref lit l then
    let rest := l.drop lit.length
    match m with
    | .noSep => take6 rest
    | .sepPlus =>
      if (rest.takeWhile isSepCh).isEmpty then none
      else take6 (rest.dropWhile isSepCh)
    | .sepStar => take6 (rest.dropWhile isSepCh)
  else none

/-- `re.search` for a keyword pattern: try each position left to right
(the literals are all nonempty, so the empty tail cannot match). -/
def searchKw (lit : List Char) (m : SepMode) : List Char → Option (List Char)
  | [] => none
  | c :: cs =>
    match matchKwAt lit m (c :: cs) with
    | some ds => some ds
    | none => searchKw lit m cs

/-- Match `>\s*(\d{6})\s*<` at the current position. -/
def matchAngleAt (l : List Char) : Option (List Char) :=
  match l with
  | [] => none
  | c :: r =>
    if c == '>' then
      let r1 := r.dropWhile isSpaceCh
      match take6 r1 with
      | some ds =>
        if ((r1.drop 6).dropWhile isSpaceCh).head? == some '<' then some ds
        else none
      | none => none
    else none

/-- `re.search` for the `>\s*(\d{6})\s*<` pattern. -/
def searchAngle : List Char → Option (List Char)
  | [] => none
  | c :: cs =>
    match matchAngleAt (c :: cs) with
    | some ds => some ds
    | none => searchAngle cs

/-- `\b` holds before a word character exactly when the previous
character is absent or not a word character. -/
def wbOk : Option Char → Bool
  | none => true
  | some c => !isWordCh c

/-- Match `\b(\d{6})\b` at the current position, given the previous
character. -/
def matchBareAt (prev : Option Char) (l : List Char) : Option (List Char) :=
  if wbOk prev then
    match take6 l with
    | some ds => if wbOk ((l.drop 6).head?) then some ds else none
    | none => none
  else none

/-- `re.search` for the bare `\b(\d{6})\b` fallback pattern. -/
def searchBare : Option Char → List Char → Option (List Char)
  | _, [] => none
  | prev, c :: cs =>
    match matchBareAt prev (c :: cs) with
    | some ds => some ds
    | none => searchBare (some c) cs

def litCodeIs : List Char := ['c', 'o', 'd', 'e', ' ', 'i', 's', ' ']
def litCode : List Char := ['c', 'o', 'd', 'e']
def litVerificationCode : List Char :=
  ['v', 'e', 'r', 'i', 'f', 'i', 'c', 'a', 't', 'i', 'o', 'n', ' ', 'c', 'o', 'd', 'e']
def litVerify : List Char := ['v', 'e', 'r', 'i', 'f', 'y']
def litYzm : List Char := ['验', '证', '码']
def litYourCodeIs : List Char := ['Y', 'o', 'u', 'r', ' ', 'c', 'o', 'd', 'e', ' ', 'i', 's']
def litEnterThisCode : List Char :=
  ['E', 'n', 't', 'e', 'r', ' ', 't', 'h', 'i', 's', ' ', 'c', 'o', 'd', 'e']

/-- Return the first matcher's result, in order (the `for pattern in
code_patterns` loop). -/
def firstSome : List (List Char → Option (List Char)) → List Char → Option (List Char)
  | [], _ => none
  | f :: fs, l =>
    match f l with
    | some ds => some ds
    | none => firstSome fs l

/-- The nine patterns of `extract_code_from_content`, in source order. -/
def codeMatchers : List (List Char → Option (List Char)) :=
  [searchKw litCodeIs .noSep,
   searchKw litCode .sepPlus,
   searchKw litVerificationCode .sepPlus,
   searchKw litVerify .sepPlus,
   searchKw litYzm .sepStar,
   searchKw litYourCodeIs .sepStar,
   searchKw litEnterThisCode .sepStar,
   searchAngle,
   fun l => searchBare none l]

def extractL (l : List Char) : Option (List Char) :=
  firstSome codeMatchers l

/-- `TempMailService.extract_code_from_content` (tempmail_service.py,
lines 122-145): `None` on empty content, otherwise the capture of the
first pattern that matches. -/
def extract_code_from_content (content : String) : Option String :=
  if content.data.isEmpty then none
  else (extractL content.data).map fun ds => String.mk ds

/-- Substring test used to state the pattern-priority property. -/
def listContainsSub (needle : List Char) : List Char → Bool
  | [] => needle.isEmpty
  | c :: cs => needle.isPrefixOf (c :: cs) || listContainsSub needle cs

def strContainsSub (s sub : String) : Bool :=
  listContainsSub sub.data s.data

end Sora2

namespace Sora2

theorem digit_cases {c : Char} (h : isDigitCh c = true) :
    c = '0' ∨ c = '1' ∨ c = '2' ∨ c = '3' ∨ c = '4' ∨
    c = '5' ∨ c = '6' ∨ c = '7' ∨ c = '8' ∨ c = '9' := by
  simp only [isDigitCh, Bool.or_eq_true, beq_iff_eq] at h
  tauto

theorem take6_shape {l ds : List Char} (h : take6 l = some ds) :
    ds.length = 6 ∧ ds.all isDigitCh = true := by
  unfold take6 at h
  split at h
  · split at h
    · cases h
      refine ⟨rfl, ?_⟩
      simp_all [List.all]
    · cases h
  · cases h

theorem matchKwAt_shape {lit l ds : List Char} {m : SepMode}
    (h : matchKwAt lit m l = some ds) :
    ds.length = 6 ∧ ds.all isDigitCh = true := by
  unfold matchKwAt at h
  dsimp only at h
  split at h
  · split at h
    · exact take6_shape h
    · split at h
      · cases h
      · exact take6_shape h
    · exact take6_shape h
  · cases h

theorem searchKw_shape {lit : List Char} {m : SepMode} :
    ∀ {l ds : List Char}, searchKw lit m l = some ds →
      ds.length = 6 ∧ ds.all isDigitCh = true := by
  intro l
  induction l with
  | nil => intro ds h; cases h
  | cons c cs ih =>
    intro ds h
    unfold searchKw at h
    split at h
    · cases h; exact matchKwAt_shape (by assumption)
    · exact ih h

theorem matchAngleAt_shape {l ds : List Char}
    (h : matchAngleAt l = some ds) :
    ds.length = 6 ∧ ds.all isDigitCh = true := by
  unfold matchAngleAt at h
  dsimp only at h
  split at h
  · cases h
  · split at h
    · split at h
      · split at h
        · cases h; exact take6_shape (by assumption)
        · cases h
      · cases h
    · cases h

theorem searchAngle_shape :
    ∀ {l ds : List Char}, searchAngle l = some ds →
      ds.length = 6 ∧ ds.all isDigitCh = true := by
  intro l
  induction l with
  | nil => intro ds h; cases h
  | cons c cs ih =>
    intro ds h
    unfold searchAngle at h
    split at h
    · cases h; exact matchAngleAt_shape (by assumption)
    · exact ih h

theorem matchBareAt_shape {p : Option Char} {l ds : List Char}
    (h : matchBareAt p l = some ds) :
    ds.length = 6 ∧ ds.all isDigitCh = true := by
  unfold matchBareAt at h
  split at h
  · split at h
    · split at h
      · cases h; exact take6_shape (by assumption)
      · cases h
    · cases h
  · cases h

theorem searchBare_shape :
    ∀ {p : Option Char} {l ds : List Char}, searchBare p l = some ds →
      ds.length = 6 ∧ ds.all isDigitCh = true := by
  intro p l
  induction l generalizing p with
  | nil => intro ds h; cases h
  | cons c cs ih =>
    intro ds h
    unfold searchBare at h
    split at h
    · cases h; exact matchBareAt_shape (by assumption)
    · exact ih h

theorem firstSome_shape {P : List Char → Prop}
    {fs : List (List Char → Option (List Char))} :
    (∀ f ∈ fs, ∀ l ds, f l = some ds → P ds) →
    ∀ {l ds}, firstSome fs l = some ds → P ds := by
  induction fs with
  | nil => intro _ l ds h; cases h
  | cons f fs ih =>
    intro hfs l ds h
    unfold firstSome at h
    split at h
    · cases h
      exact hfs f (List.mem_cons_self f fs) l ds (by assumption)
    · exact ih (fun g hg => hfs g (List.mem_cons_of_mem f hg)) h

theorem extractL_shape {l ds : List Char} (h : extractL l = some ds) :
    ds.length = 6 ∧ ds.all isDigitCh = true := by
  refine firstSome_shape (P := fun ds => ds.length = 6 ∧ ds.all isDigitCh = true) ?_ h
  intro f hf
  simp only [codeMatchers, List.mem_cons, List.not_mem_nil, or_false] at hf
  rcases hf with rfl | rfl | rfl | rfl | rfl | rfl | rfl | rfl | rfl
  all_goals intro l ds h
  all_goals first
    | exact searchKw_shape h
    | exact searchAngle_shape h
    | exact searchBare_shape h

end Sora2

namespace Sora2

theorem kwHead_false {x g : Char}
    (hx : x = 'c' ∨ x = 'v' ∨ x = '验' ∨ x = 'Y' ∨ x = 'E')
    (hg : isDigitCh g = true) : (x.toLower == g.toLower) = false := by
  rcases digit_cases hg with rfl|rfl|rfl|rfl|rfl|rfl|rfl|rfl|rfl|rfl <;>
    rcases hx with rfl|rfl|rfl|rfl|rfl <;> decide

theorem digit_ne_gt {c : Char} (h : isDigitCh c = true) : (c == '>') = false := by
  rcases digit_cases h with rfl|rfl|rfl|rfl|rfl|rfl|rfl|rfl|rfl|rfl <;> decide

theorem searchKw_digits {x : Char} {lt : List Char} {m : SepMode}
    (hx : x = 'c' ∨ x = 'v' ∨ x = '验' ∨ x = 'Y' ∨ x = 'E') :
    ∀ {l : List Char}, l.all isDigitCh = true → searchKw (x :: lt) m l = none := by
  intro l
  induction l with
  | nil => intro _; rfl
  | cons c cs ih =>
    intro h
    simp only [List.all_cons, Bool.and_eq_true] at h
    have hci : ciPref (x :: lt) (c :: cs) = false := by
      unfold ciPref
      rw [kwHead_false hx h.1, Bool.false_and]
    unfold searchKw
    rw [show matchKwAt (x :: lt) m (c :: cs) = none by unfold matchKwAt; rw [hci]; rfl]
    exact ih h.2

theorem searchAngle_digits :
    ∀ {l : List Char}, l.all isDigitCh = true → searchAngle l = none := by
  intro l
  induction l with
  | nil => intro _; rfl
  | cons c cs ih =>
    intro h
    simp only [List.all_cons, Bool.and_eq_true] at h
    unfold searchAngle
    rw [show matchAngleAt (c :: cs) = none by
      simp [matchAngleAt, digit_ne_gt h.1]]
    exact ih h.2

theorem searchBare_six {a b c d e f : Char}
    (h : ([a, b, c, d, e, f] : List Char).all isDigitCh = true) :
    searchBare none [a, b, c, d, e, f] = some [a, b, c, d, e, f] := by
  simp only [List.all_cons, List.all_nil, Bool.and_eq_true] at h
  unfold searchBare matchBareAt take6
  simp [wbOk, h.1, h.2.1, h.2.2.1, h.2.2.2.1, h.2.2.2.2.1, h.2.2.2.2.2.1]

theorem extractL_six {a b c d e f : Char}
    (h : ([a, b, c, d, e, f] : List Char).all isDigitCh = true) :
    extractL [a, b, c, d, e, f] = some [a, b, c, d, e, f] := by
  have h1 : searchKw litCodeIs SepMode.noSep [a, b, c, d, e, f] = none :=
    searchKw_digits (by tauto) h
  have h2 : searchKw litCode SepMode.sepPlus [a, b, c, d, e, f] = none :=
    searchKw_digits (by tauto) h
  have h3 : searchKw litVerificationCode SepMode.sepPlus [a, b, c, d, e, f] = none :=
    searchKw_digits (by tauto) h
  have h4 : searchKw litVerify SepMode.sepPlus [a, b, c, d, e, f] = none :=
    searchKw_digits (by tauto) h
  have h5 : searchKw litYzm SepMode.sepStar [a, b, c, d, e, f] = none :=
    searchKw_digits (by tauto) h
  have h6 : searchKw litYourCodeIs SepMode.sepStar [a, b, c, d, e, f] = none :=
    searchKw_digits (by tauto) h
  have h7 : searchKw litEnterThisCode SepMode.sepStar [a, b, c, d, e, f] = none :=
    searchKw_digits (by tauto) h
  have h8 : searchAngle [a, b, c, d, e, f] = none := searchAngle_digits h
  have h9 := searchBare_six h
  simp [extractL, codeMatchers, firstSome, h1, h2, h3, h4, h5, h6, h7, h8, h9]

theorem length_six_explicit {α : Type} (l : List α) (h : l.length = 6) :
    ∃ a b c d e f, l = [a, b, c, d, e, f] := by
  rcases l with _ | ⟨a, _ | ⟨b, _ | ⟨c, _ | ⟨d, _ | ⟨e, _ | ⟨f, _ | ⟨g, t⟩⟩⟩⟩⟩⟩⟩ <;>
    simp at h
  exact ⟨a, b, c, d, e, f, rfl⟩

end Sora2

namespace Sora2

/-- C7: `extract_code_from_content` is idempotent (whenever it returns a
code, it returns that code again when applied to it), and
pattern-priority-ordered: on any body text that contains the standalone
digit run `999999` and the marker text `code is 123456`, and whose first
`code is (\d{6})` match captures `123456`, the result is `123456`
because that pattern is tried before the bare six-digit fallback. -/
theorem extract_code_idem_and_priority :
    (∀ c s, extract_code_from_content c = some s →
      extract_code_from_content s = some s) ∧
    (∀ c, strContainsSub c "999999" = true →
      strContainsSub c "code is 123456" = true →
      searchKw litCodeIs SepMode.noSep c.data = some ['1', '2', '3', '4', '5', '6'] →
      extract_code_from_content c = some "123456") := by
  constructor
  · intro c s h
    unfold extract_code_from_content at h
    split at h
    · cases h
    · have hex : ∃ ds, extractL c.data = some ds ∧ s = String.mk ds := by
        cases hx : extractL c.data with
        | none => rw [hx] at h; cases h
        | some ds =>
          rw [hx] at h
          cases h
          exact ⟨ds, rfl, rfl⟩
      obtain ⟨ds, hds, rfl⟩ := hex
      obtain ⟨hlen, hdig⟩ := extractL_shape hds
      obtain ⟨a, b, c', d, e, f, rfl⟩ := length_six_explicit ds hlen
      unfold extract_code_from_content
      rw [show (String.mk [a, b, c', d, e, f]).data = [a, b, c', d, e, f] from rfl]
      rw [show ([a, b, c', d, e, f] : List Char).isEmpty = false from rfl]
      rw [extractL_six hdig]
      rfl
  · intro c _ _ hp1
    have hne : c.data.isEmpty = false := by
      cases hd : c.data with
      | nil => rw [hd] at hp1; cases hp1
      | cons x xs => rfl
    unfold extract_code_from_content
    rw [hne]
    simp only [Bool.false_eq_true, if_false]
    rw [show extractL c.data = some ['1', '2', '3', '4', '5', '6'] by
      unfold extractL codeMatchers firstSome
      rw [hp1]]
    rfl

/-- Witness for C7 at concrete inputs: idempotence applied to
`"123456"`, and priority applied to a body containing both `999999`
and `code is 123456`. -/
theorem extract_code_idem_and_priority_witness :
    extract_code_from_content "123456" = some "123456" ∧
    extract_code_from_content "id 999999 your code is 123456 ok" = some "123456" :=
  ⟨extract_code_idem_and_priority.1 "sent: code is 123456" "123456" (by rfl),
   extract_code_idem_and_priority.2 "id 999999 your code is 123456 ok"
     (by rfl) (by rfl) (by rfl)⟩

end Sora2

namespace Sora2

/-! ## `TempMailService.get_email_address` (tempmail_service.py, lines 14-90)

One `create` request either yields a mailbox address (HTTP ok, `code == "0"`,
data present) or raises (HTTP error, API error, network failure); the
oracle `resps` gives the outcome of the request made on each attempt. -/

/-- Outcome of the `create` request of one attempt. -/
inductive CreateResp
  | httpError
  | okEmail (email : String)
deriving DecidableEq, Repr

/-- `TempMailService.BLOCKED_SUFFIXES`. -/
def BLOCKED_SUFFIXES : List String := [".top"]

/-- Python's `str.lower()` on ASCII text. -/
def lcList (l : List Char) : List Char := l.map Char.toLower

/-- `TempMailService.is_email_supported`: an empty address is unsupported,
and so is one whose lowercased form ends with a blocked suffix. -/
def is_email_supported (email : String) : Bool :=
  if email = "" then false
  else BLOCKED_SUFFIXES.all fun sfx => !(sfx.data.isSuffixOf (lcList email.data))

/-- Errors `get_email_address` can raise. -/
inductive MailErr
  | requestFailed
  | exhausted
deriving DecidableEq, Repr

/-- The `for attempt in range(1, max_retries + 1)` loop of
`get_email_address`: an unsupported address is discarded and the next
attempt begins; a request failure on the last attempt is re-raised;
when the loop ends, the final failure is raised. -/
def getEmailLoop (resps : Nat → CreateResp) (maxRetries : Nat) :
    Nat → Nat → Except MailErr String
  | _, 0 => .error .exhausted
  | attempt, remaining + 1 =>
    match resps attempt with
    | .okEmail e =>
      if is_email_supported e then .ok e
      else getEmailLoop resps maxRetries (attempt + 1) remaining
    | .httpError =>
      if attempt == maxRetries then .error .requestFailed
      else getEmailLoop resps maxRetries (attempt + 1) remaining

/-- `TempMailService.get_email_address(max_retries)`. -/
def get_email_address (resps : Nat → CreateResp) (maxRetries : Nat) :
    Except MailErr String :=
  getEmailLoop resps maxRetries 1 maxRetries

theorem getEmailLoop_ok_supported {resps : Nat → CreateResp} {maxR : Nat} :
    ∀ {remaining attempt : Nat} {e : String},
      getEmailLoop resps maxR attempt remaining = .ok e →
      is_email_supported e = true := by
  intro remaining
  induction remaining with
  | zero => intro _ _ h; cases h
  | succ r ih =>
    intro attempt e h
    unfold getEmailLoop at h
    split at h
    · split at h
      · cases h; assumption
      · exact ih h
    · split at h
      · cases h
      · exact ih h

theorem getEmailLoop_all_blocked {resps : Nat → CreateResp} {maxR : Nat} :
    ∀ {remaining attempt : Nat},
      (∀ i, attempt ≤ i → i < attempt + remaining →
        ∃ e, resps i = .okEmail e ∧ is_email_supported e = false) →
      getEmailLoop resps maxR attempt remaining = .error .exhausted := by
  intro remaining
  induction remaining with
  | zero => intro _ _; rfl
  | succ r ih =>
    intro attempt hall
    obtain ⟨e, he, hsup⟩ := hall attempt le_rfl (by omega)
    unfold getEmailLoop
    rw [he]
    simp only [hsup, Bool.false_eq_true, if_false]
    exact ih fun i h1 h2 => hall i (by omega) (by omega)

/-- C9: a successfully returned mailbox address never ends
(case-insensitively) with the blocked suffix `.top`; and when every
attempt yields a blocked address, the call fails after `max_retries`
attempts. -/
theorem get_email_address_blocked_suffix :
    (∀ resps maxR e, get_email_address resps maxR = .ok e →
      is_email_supported e = true ∧
      ".top".data.isSuffixOf (lcList e.data) = false) ∧
    (∀ resps maxR,
      (∀ i, 1 ≤ i → i ≤ maxR →
        ∃ e, resps i = .okEmail e ∧ is_email_supported e = false) →
      get_email_address resps maxR = .error .exhausted) := by
  constructor
  · intro resps maxR e h
    have hsup := getEmailLoop_ok_supported h
    refine ⟨hsup, ?_⟩
    unfold is_email_supported BLOCKED_SUFFIXES at hsup
    split at hsup
    · cases hsup
    · simp only [List.all_cons, List.all_nil, Bool.and_true, Bool.not_eq_true'] at hsup
      exact hsup
  · intro resps maxR hall
    exact getEmailLoop_all_blocked fun i h1 h2 => hall i h1 (by omega)

/-- Witness for C9: a `.TOP` address is skipped and the next one
returned; ten blocked addresses in a row exhaust the retries. -/
theorem get_email_address_blocked_suffix_witness :
    ".top".data.isSuffixOf (lcList ("user@mail.com" : String).data) = false ∧
    get_email_address (fun _ => .okEmail "x@mail.top") 10 = .error .exhausted := by
  constructor
  · exact (get_email_address_blocked_suffix.1
      (fun i => if i = 1 then .okEmail "user@mail.TOP" else .okEmail "user@mail.com")
      10 "user@mail.com" (by rfl)).2
  · exact get_email_address_blocked_suffix.2 (fun _ => .okEmail "x@mail.top") 10
      (fun i _ _ => ⟨"x@mail.top", rfl, rfl⟩)

end Sora2

namespace Sora2

/-! ## `GrizzlySMSService` (sms_service.py)

The client's mutable state is the record below; every request issued to
the Hero SMS HTTP API is appended to an explicit trace, and the
provider's behaviour is an oracle keyed by the request's position in
that trace. -/

/-- Mutable fields of a `GrizzlySMSService` instance
(sms_service.py, lines 35-50). -/
structure SmsState where
  apiKey : String
  service : Option String
  country : Option String
  maxPrice : Option String
  activation_id : Option Nat
  phone_number : Option String
deriving DecidableEq, Repr

/-- A request issued to the SMS provider. -/
inductive SmsReq
  | getNumberReq (service country : String) (maxPrice : Option String)
  | setStatusReq (id : Nat) (status : Nat)
  | getStatusReq (id : Nat)
deriving DecidableEq, Repr

/-- Parsed `get_status` response (sms_service.py, lines 280-299). -/
inductive PollStatus
  | waitCode
  | waitRetry (lastCode : Option String)
  | waitResend
  | cancelled
  | okCode (code : Option String)
  | unknown (raw : String)
deriving DecidableEq, Repr

/-- Outcome of one `get_status` call: a parsed status obtained after
`d` milliseconds, or an exception with message `msg` raised after `d`
milliseconds (HTTP and network failures, and the error responses that
`get_status` turns into exceptions). -/
inductive GetStatusRes
  | parsed (d : Nat) (st : PollStatus)
  | raised (d : Nat) (msg : String)
deriving DecidableEq, Repr

/-- Duration of a `get_status` call. -/
def statusDur : GetStatusRes → Nat
  | .parsed d _ => d
  | .raised d _ => d

/-- Response to a `getNumberV2` request (sms_service.py, lines 163-206). -/
inductive GetNumResp
  | badKey
  | noNumbers
  | prohibited
  | regionBlocked
  | wrongMaxPrice (price : String)
  | okNum (id : Nat) (phone : String)
deriving DecidableEq, Repr

/-- Provider oracle: behaviour of the request at position `n` of the
trace (`setStatusDur` gives the duration of a `setStatus` call). -/
structure Provider where
  setStatusResp : Nat → String
  setStatusDur : Nat → Nat
  getStatusRes : Nat → GetStatusRes
  getNumberResp : Nat → GetNumResp

/-- A raised Python exception: an `AttributeError` from a failed
attribute lookup, or a plain `Exception(msg)`.  `str` renders the
message the callers inspect with `in` checks. -/
inductive PyErr
  | attributeError (attr : String)
  | exc (msg : String)
deriving DecidableEq, Repr

def PyErr.str : PyErr → String
  | .attributeError a => "GrizzlySMSService object has no attribute " ++ a
  | .exc m => m

/-- `GrizzlySMSService.set_status` (lines 211-249): raises when no
activation id is stored; otherwise issues the request and raises on the
`BAD_KEY` / `NO_ACTIVATION` / `BAD_STATUS` responses. -/
def set_status (pv : Provider) (s : SmsState) (status : Nat) (tr : List SmsReq) :
    Except PyErr String × List SmsReq :=
  match s.activation_id with
  | none => (.error (.exc "激活ID不存在，请先申请号码"), tr)
  | some id =>
    let resp := pv.setStatusResp tr.length
    let tr2 := tr ++ [SmsReq.setStatusReq id status]
    if resp = "BAD_KEY" then (.error (.exc "API 密钥不正确"), tr2)
    else if resp = "NO_ACTIVATION" then (.error (.exc "激活ID不存在"), tr2)
    else if resp = "BAD_STATUS" then (.error (.exc "状态不正确"), tr2)
    else (.ok resp, tr2)

/-- `set_ready` (lines 304-312): status 1, errors propagate. -/
def set_ready (pv : Provider) (s : SmsState) (tr : List SmsReq) :
    Except PyErr String × List SmsReq :=
  set_status pv s 1 tr

/-- `resend_sms` (lines 314-323): status 3, errors propagate. -/
def resend_sms (pv : Provider) (s : SmsState) (tr : List SmsReq) :
    Except PyErr String × List SmsReq :=
  set_status pv s 3 tr

/-- `set_complete` (lines 325-337): status 6; a failure is swallowed
and `None` returned.  The stored fields are left untouched. -/
def set_complete (pv : Provider) (s : SmsState) (tr : List SmsReq) :
    Option String × List SmsReq :=
  match set_status pv s 6 tr with
  | (.ok r, tr2) => (some r, tr2)
  | (.error _, tr2) => (none, tr2)

/-- `cancel` (lines 339-352): status 8; a failure is swallowed and
`None` returned.  The stored fields are left untouched. -/
def cancel (pv : Provider) (s : SmsState) (tr : List SmsReq) :
    Option String × List SmsReq :=
  match set_status pv s 8 tr with
  | (.ok r, tr2) => (some r, tr2)
  | (.error _, tr2) => (none, tr2)

/-- `close` (lines 425-436): cancel any active number (failures
swallowed) and clear every stored field. -/
def close (pv : Provider) (s : SmsState) (tr : List SmsReq) :
    SmsState × List SmsReq :=
  let tr2 := if s.activation_id.isSome then (cancel pv s tr).2 else tr
  ({ s with activation_id := none, phone_number := none,
            service := none, country := none }, tr2)

/-- `get_number` (lines 123-209): the `service` / `country` /
`max_price` arguments fall back to the instance fields when `None`
(passing `None` explicitly is indistinguishable from omitting the
argument); `maxPrice` is put in the request only when the effective bid
is set.  Error responses raise; on success the activation id and phone
number are stored on the instance. -/
def get_number (pv : Provider) (s : SmsState) (tr : List SmsReq)
    (service country max_price : Option String) :
    Except PyErr (Nat × String) × SmsState × List SmsReq :=
  let fs := service.orElse fun _ => s.service
  let fc := country.orElse fun _ => s.country
  let fp := max_price.orElse fun _ => s.maxPrice
  let resp := pv.getNumberResp tr.length
  let tr2 := tr ++ [SmsReq.getNumberReq (fs.getD "None") (fc.getD "None") fp]
  match resp with
  | .badKey => (.error (.exc "API 密钥不正确"), s, tr2)
  | .noNumbers => (.error (.exc "没有可用号码，请稍后重试或更换国家"), s, tr2)
  | .prohibited => (.error (.exc "该服务被禁止销售，请选择其他服务"), s, tr2)
  | .regionBlocked => (.error (.exc "您所在地区的访问受限，请使用其他地区的 IP 地址"), s, tr2)
  | .wrongMaxPrice p =>
    (.error (.exc ("最高价格设置过低，实际价格为 " ++ p ++ "，请提高 maxPrice 参数或设置为 null")), s, tr2)
  | .okNum id phone =>
    (.ok (id, phone),
     { s with activation_id := some id, phone_number := some phone,
              service := fs, country := fc }, tr2)

/-- The polling loop of `wait_for_verification_code` (lines 374-414).
`cur` is the clock in milliseconds; each iteration issues `getStatus`
(whose duration the oracle assigns), possibly the automatic resend
request, and sleeps `poll` ms before re-checking the elapsed time.  One
unit of fuel is consumed per iteration; `timeout + 1` units are
supplied by the wrapper, which cannot run out when `poll ≥ 1`. -/
def waitPoll (pv : Provider) (id : Nat) (timeout poll startT : Nat) :
    Nat → Nat → List SmsReq → Except PyErr String × Nat × List SmsReq
  | 0, cur, tr => (.error (.exc "FUEL"), cur, tr)
  | fuel + 1, cur, tr =>
    if cur - startT < timeout then
      match pv.getStatusRes tr.length with
      | .raised d msg =>
        if strContainsSub msg "超时" ||
           strContainsSub (String.mk (lcList msg.data)) "timeout" then
          waitPoll pv id timeout poll startT fuel (cur + d + poll)
            (tr ++ [SmsReq.getStatusReq id])
        else (.error (.exc msg), cur + d, tr ++ [SmsReq.getStatusReq id])
      | .parsed d st =>
        match st with
        | .okCode (some c) =>
          if c == "" then
            waitPoll pv id timeout poll startT fuel (cur + d + poll)
              (tr ++ [SmsReq.getStatusReq id])
          else (.ok c, cur + d, tr ++ [SmsReq.getStatusReq id])
        | .waitResend =>
          waitPoll pv id timeout poll startT fuel
            (cur + d + pv.setStatusDur (tr ++ [SmsReq.getStatusReq id]).length + poll)
            (tr ++ [SmsReq.getStatusReq id] ++ [SmsReq.setStatusReq id 3])
        | .cancelled =>
          (.error (.exc "接码已被取消"), cur + d, tr ++ [SmsReq.getStatusReq id])
        | _ =>
          waitPoll pv id timeout poll startT fuel (cur + d + poll)
            (tr ++ [SmsReq.getStatusReq id])
    else (.error (.exc "等待验证码超时"), cur, tr)

/-- `wait_for_verification_code(timeout, poll_interval)`
(lines 354-415): raises if no activation id is stored, then polls until
a code arrives or the window elapses.  The second component of the
result is the time at which the call returns or raises. -/
def wait_for_verification_code (pv : Provider) (s : SmsState)
    (timeout poll startT : Nat) (tr : List SmsReq) :
    Except PyErr String × Nat × List SmsReq :=
  match s.activation_id with
  | none => (.error (.exc "激活ID不存在，请先申请号码"), startT, tr)
  | some id => waitPoll pv id timeout poll startT (timeout + 1) startT tr

end Sora2

namespace Sora2

/-! ## `OpenAIRegister._handle_phone_verification`
(register_service.py, lines 790-1246)

The browser-side behaviour (token lookups, the in-page `enroll/start`
and `enroll/finish` requests, the `api/auth/session` listener) is given
by the environment record below. -/

structure PvEnv where
  sessionToken : Option String
  accessToken : Option String
  startOk : Nat → Bool
  finishOk : Bool
  refreshedToken : Option String
  cookieToken : Option String

/-- Python truthiness of an optional string. -/
def truthy : Option String → Bool
  | none => false
  | some s => s != ""

/-- The tokens returned by a successful verification. -/
structure PvResult where
  accessToken : String
  sessionToken : Option String
deriving DecidableEq, Repr

/-- The acquisition call of `_handle_phone_verification` is written
`sms_service.getNumber(...)` (register_service.py, lines 847, 851 and
991), but `GrizzlySMSService` defines only `get_number`
(sms_service.py, line 123) and no `getNumber` attribute exists
anywhere.  Python's attribute lookup therefore raises `AttributeError`
before any request reaches the provider. -/
def callGetNumber (s : SmsState) (tr : List SmsReq) :
    Except PyErr (Nat × String) × SmsState × List SmsReq :=
  (.error (.attributeError "getNumber"), s, tr)

/-- Steps 9-12 of the handler (lines 1178-1246): prefer a fresh access
token observed on `api/auth/session` within 15 s, fall back to the
token obtained earlier, and read the session cookie. -/
def refreshResult (env : PvEnv) (a : String) : Except PyErr PvResult :=
  if truthy env.refreshedToken then
    .ok { accessToken := env.refreshedToken.getD "", sessionToken := env.cookieToken }
  else if a != "" then
    .ok { accessToken := a, sessionToken := env.cookieToken }
  else .error (.exc "无法获取 accessToken，无法保存账号信息")

/-- Steps 7-12: the `enroll/finish` request, the conditional
`set_complete`, and the token refresh. -/
def finishAndComplete (env : PvEnv) (pv : Provider) (setComplete : Bool)
    (s : SmsState) (a : String) (tr : List SmsReq) :
    Except PyErr PvResult × SmsState × List SmsReq :=
  if env.finishOk then
    let tr2 := if setComplete then (set_complete pv s tr).2 else tr
    (refreshResult env a, s, tr2)
  else (.error (.exc "Finish 请求失败"), s, tr)

/-- The wait-and-retry loop of the handler (lines 964-1085).
`remaining` is `max_retries - retry_count` (initially 3); on a timeout
with retries left the exhausted number is cancelled and a fresh
acquisition is attempted through the `getNumber` call site. -/
def waitRetryLoop (env : PvEnv) (pv : Provider) (setComplete : Bool)
    (s : SmsState) (a : String) (startCount : Nat) :
    Nat → List SmsReq → Except PyErr PvResult × SmsState × List SmsReq
  | 0, tr => (.error (.exc "等待验证码超时，已重试 3 次"), s, tr)
  | remaining + 1, tr =>
    match wait_for_verification_code pv s 60000 3000 0 tr with
    | (.ok _, _, tr2) => finishAndComplete env pv setComplete s a tr2
    | (.error e, _, tr2) =>
      if strContainsSub e.str "超时" ||
         strContainsSub (String.mk (lcList e.str.data)) "timeout" then
        match remaining with
        | 0 => (.error (.exc "等待验证码超时，已重试 3 次"), s, tr2)
        | rem + 1 =>
          let tr3 := (cancel pv s tr2).2
          match callGetNumber s tr3 with
          | (.ok _, s2, tr4) =>
            match set_ready pv s2 tr4 with
            | (.ok _, tr5) =>
              if env.startOk startCount then
                waitRetryLoop env pv setComplete s2 a (startCount + 1) (rem + 1) tr5
              else (.error (.exc "重新发起 Start 请求失败"), s2, tr5)
            | (.error e2, tr5) => (.error e2, s2, tr5)
          | (.error e2, s2, tr4) => (.error e2, s2, tr4)
      else (.error e, s, tr2)

/-- Steps 4-12 once a phone number is at hand: token lookups, the
`enroll/start` request, then the wait loop. -/
def afterPhone (env : PvEnv) (pv : Provider) (setComplete : Bool)
    (s : SmsState) (tr : List SmsReq) :
    Except PyErr PvResult × SmsState × List SmsReq :=
  if truthy env.sessionToken then
    if truthy env.accessToken then
      if env.startOk 0 then
        waitRetryLoop env pv setComplete s (env.accessToken.getD "") 1 3 tr
      else (.error (.exc "Start 请求失败"), s, tr)
    else (.error (.exc "无法获取 Access Token"), s, tr)
  else (.error (.exc "无法获取 Session Token"), s, tr)

/-- `OpenAIRegister._handle_phone_verification(email, sms_service,
reuse_phone, set_complete)` over the SMS client state `s` (the trace
starts empty at the call). -/
def handle_phone_verification (env : PvEnv) (pv : Provider) (s : SmsState)
    (reuse_phone setComplete : Bool) :
    Except PyErr PvResult × SmsState × List SmsReq :=
  if s.apiKey == "" then
    (.error (.exc "HERO_SMS_API_KEY 未设置，请在配置中设置"), s, [])
  else if reuse_phone then
    match s.phone_number with
    | none => (.error (.exc "复用手机号失败：SMS 服务中没有已激活的手机号"), s, [])
    | some _ =>
      match resend_sms pv s [] with
      | (.error e, tr) => (.error e, s, tr)
      | (.ok _, tr) => afterPhone env pv setComplete s tr
  else
    match callGetNumber s [] with
    | (.ok _, s2, tr) =>
      match set_ready pv s2 tr with
      | (.ok _, tr2) => afterPhone env pv setComplete s2 tr2
      | (.error e, tr2) => (.error e, s2, tr2)
    | (.error e, s2, tr) =>
      if strContainsSub e.str "最高价格设置过低" then
        match callGetNumber s2 tr with
        | (.ok _, s3, tr2) =>
          match set_ready pv s3 tr2 with
          | (.ok _, tr3) => afterPhone env pv setComplete s3 tr3
          | (.error e2, tr3) => (.error e2, s3, tr3)
        | (.error e2, s3, tr2) => (.error e2, s3, tr2)
      else (.error e, s2, tr)

end Sora2

namespace Sora2

/-- Is a request an acquisition request? -/
def isGetNumberReq : SmsReq → Bool
  | .getNumberReq _ _ _ => true
  | _ => false

/-- C3: a phone acquisition is never performed.  For every
`reuse_phone = False` call of `_handle_phone_verification`, the run
raises `AttributeError("getNumber")` with an empty request trace: no
`getNumberV2` request (with or without a price ceiling) ever reaches
the provider, so the `WRONG_MAX_PRICE` retry branch (lines 848-853) is
unreachable. -/
theorem phone_acquisition_never_issued :
    ∀ (env : PvEnv) (pv : Provider) (s : SmsState) (c : Bool),
      handle_phone_verification env pv s false c =
        if s.apiKey == "" then
          (.error (.exc "HERO_SMS_API_KEY 未设置，请在配置中设置"), s, [])
        else (.error (.attributeError "getNumber"), s, []) := by
  intro env pv s c
  unfold handle_phone_verification
  cases h : s.apiKey == "" <;> simp [h, callGetNumber]

/-- Fixture: a provider on which the verification code never arrives
(every poll reports `STATUS_WAIT_CODE`), although numbers are freely
available for re-acquisition. -/
def pvWaitCode : Provider :=
  { setStatusResp := fun _ => "ACCESS_READY"
    setStatusDur := fun _ => 0
    getStatusRes := fun _ => .parsed 0 .waitCode
    getNumberResp := fun _ => .okNum 99 "79995550000" }

/-- Fixture: browser environment in which every step succeeds. -/
def envOkPv : PvEnv :=
  { sessionToken := some "sess", accessToken := some "tok"
    startOk := fun _ => true, finishOk := true
    refreshedToken := none, cookieToken := some "cookie" }

/-- Fixture: an SMS client holding a leased number (activation id 7). -/
def sLeased : SmsState :=
  { apiKey := "key", service := some "dr", country := some "151"
    maxPrice := some "0.025", activation_id := some 7
    phone_number := some "79991112233" }

/-- C2: on a run in which the SMS OTP never arrives, the code-wait is
attempted only once (one 60 s window of 20 polls), the exhausted lease
is cancelled once, and then the run raises `AttributeError("getNumber")`
while re-acquiring — not the phone-verification-timeout error after
three attempts that the retry policy intends. -/
theorem phone_timeout_retry_crashes :
    (handle_phone_verification envOkPv pvWaitCode sLeased true true).1 =
      .error (.attributeError "getNumber") ∧
    (handle_phone_verification envOkPv pvWaitCode sLeased true true).2.2.count
      (SmsReq.getStatusReq 7) = 20 ∧
    (handle_phone_verification envOkPv pvWaitCode sLeased true true).2.2.count
      (SmsReq.setStatusReq 7 8) = 1 ∧
    ((handle_phone_verification envOkPv pvWaitCode sLeased true true).2.2.filter
      isGetNumberReq) = [] := by
  refine ⟨by rfl, by rfl, by rfl, by rfl⟩

end Sora2

namespace Sora2

/-! ### The trace only grows -/

theorem set_status_trace_mono {pv : Provider} {s : SmsState} {st : Nat}
    {tr : List SmsReq} {x : SmsReq} (h : x ∈ tr) :
    x ∈ (set_status pv s st tr).2 := by
  unfold set_status
  cases s.activation_id with
  | none => exact h
  | some id =>
    dsimp only
    split
    · exact List.mem_append_left _ h
    · split
      · exact List.mem_append_left _ h
      · split
        · exact List.mem_append_left _ h
        · exact List.mem_append_left _ h

theorem cancel_trace_eq (pv : Provider) (s : SmsState) (tr : List SmsReq) :
    (cancel pv s tr).2 = (set_status pv s 8 tr).2 := by
  unfold cancel
  split <;> simp_all

theorem set_complete_trace_eq (pv : Provider) (s : SmsState) (tr : List SmsReq) :
    (set_complete pv s tr).2 = (set_status pv s 6 tr).2 := by
  unfold set_complete
  split <;> simp_all

theorem waitPoll_trace_mono {pv : Provider} {id timeout poll startT : Nat} :
    ∀ {fuel cur : Nat} {tr : List SmsReq} {x : SmsReq}, x ∈ tr →
      x ∈ (waitPoll pv id timeout poll startT fuel cur tr).2.2 := by
  intro fuel
  induction fuel with
  | zero => intro cur tr x h; exact h
  | succ f ih =>
    intro cur tr x h
    unfold waitPoll
    split
    · split
      · split
        · exact ih (List.mem_append_left _ h)
        · exact List.mem_append_left _ h
      · split
        · split
          · exact ih (List.mem_append_left _ h)
          · exact List.mem_append_left _ h
        · exact ih (List.mem_append_left _ (List.mem_append_left _ h))
        · exact List.mem_append_left _ h
        · exact ih (List.mem_append_left _ h)
    · exact h

theorem wait_trace_mono {pv : Provider} {s : SmsState}
    {timeout poll startT : Nat} {tr : List SmsReq} {x : SmsReq} (h : x ∈ tr) :
    x ∈ (wait_for_verification_code pv s timeout poll startT tr).2.2 := by
  unfold wait_for_verification_code
  cases s.activation_id with
  | none => exact h
  | some id => exact waitPoll_trace_mono h

theorem finishAndComplete_trace_mono {env : PvEnv} {pv : Provider}
    {c : Bool} {s : SmsState} {a : String} {tr : List SmsReq} {x : SmsReq}
    (h : x ∈ tr) : x ∈ (finishAndComplete env pv c s a tr).2.2 := by
  unfold finishAndComplete
  split
  · dsimp only
    split
    · rw [set_complete_trace_eq]
      exact set_status_trace_mono h
    · exact h
  · exact h

theorem waitRetryLoop_trace_mono {env : PvEnv} {pv : Provider} {c : Bool} :
    ∀ {remaining : Nat} {s : SmsState} {a : String} {n : Nat}
      {tr : List SmsReq} {x : SmsReq}, x ∈ tr →
      x ∈ (waitRetryLoop env pv c s a n remaining tr).2.2 := by
  intro remaining
  induction remaining with
  | zero => intro s a n tr x h; exact h
  | succ r ih =>
    intro s a n tr x h
    have hw : x ∈ (wait_for_verification_code pv s 60000 3000 0 tr).2.2 :=
      wait_trace_mono h
    unfold waitRetryLoop
    rcases hq : wait_for_verification_code pv s 60000 3000 0 tr with ⟨res, t2, tr2⟩
    rw [hq] at hw
    simp only at hw
    cases res with
    | ok code =>
      dsimp only
      exact finishAndComplete_trace_mono hw
    | error e =>
      dsimp only
      split
      · cases r with
        | zero => exact hw
        | succ rem =>
          simp only [callGetNumber]
          rw [cancel_trace_eq]
          exact set_status_trace_mono hw
      · exact hw

theorem afterPhone_trace_mono {env : PvEnv} {pv : Provider} {c : Bool}
    {s : SmsState} {tr : List SmsReq} {x : SmsReq} (h : x ∈ tr) :
    x ∈ (afterPhone env pv c s tr).2.2 := by
  unfold afterPhone
  split
  · split
    · split
      · exact waitRetryLoop_trace_mono h
      · exact h
    · exact h
  · exact h

end Sora2

namespace Sora2

/-- Fixture: a provider on which every status request is acknowledged
and the verification code arrives on the first poll. -/
def pvCodeOk : Provider :=
  { setStatusResp := fun _ => "ACCESS_ACTIVATION"
    setStatusDur := fun _ => 0
    getStatusRes := fun _ => .parsed 0 (.okCode (some "123456"))
    getNumberResp := fun _ => .okNum 99 "79995550000" }

/-- C5 counterexample: `set_complete` on the leased client requests
COMPLETE (status 6) and leaves the stored number untouched (its result
type carries no state: the Python method does not clear any field), so
the lease is terminal; yet a reuse run on that very state does not fail
with the lease-not-reusable error — it requests an SMS resend
(status 3) on the dead lease and proceeds. -/
theorem reuse_after_complete_resends :
    (set_complete pvCodeOk sLeased []).2 = [SmsReq.setStatusReq 7 6] ∧
    SmsReq.setStatusReq 7 3 ∈
      (handle_phone_verification envOkPv pvCodeOk sLeased true true).2.2 ∧
    (handle_phone_verification envOkPv pvCodeOk sLeased true true).1 =
      .ok { accessToken := "tok", sessionToken := some "cookie" } := by
  refine ⟨by rfl, by decide, by rfl⟩

/-- C5 amended: the reuse guard tests only whether a phone number is
stored.  Reuse fails with the lease-not-reusable error exactly when the
stored number is absent; a lease made terminal by `set_complete` or
`cancel` alone keeps its number, so reuse requests a resend on it; and
only `close` clears the stored fields (after which reuse does fail as
the claim expects). -/
theorem reuse_guard_is_phone_presence :
    (∀ (env : PvEnv) (pv : Provider) (s : SmsState) (c : Bool),
      s.phone_number = none → (s.apiKey == "") = false →
      handle_phone_verification env pv s true c =
        (.error (.exc "复用手机号失败：SMS 服务中没有已激活的手机号"), s, [])) ∧
    (∀ (env : PvEnv) (pv : Provider) (s : SmsState) (c : Bool) (id : Nat) (p : String),
      (s.apiKey == "") = false →
      s.activation_id = some id → s.phone_number = some p →
      SmsReq.setStatusReq id 3 ∈
        (handle_phone_verification env pv s true c).2.2) ∧
    (∀ (pv : Provider) (s : SmsState) (tr : List SmsReq),
      ((close pv s tr).1).phone_number = none ∧
      ((close pv s tr).1).activation_id = none) := by
  refine ⟨?_, ?_, ?_⟩
  · intro env pv s c hp hk
    unfold handle_phone_verification
    rw [hk, hp]
    rfl
  · intro env pv s c id p hk hid hp
    unfold handle_phone_verification
    rw [hk, hp]
    simp only [Bool.false_eq_true, if_false]
    have hmem : SmsReq.setStatusReq id 3 ∈ (resend_sms pv s []).2 := by
      unfold resend_sms set_status
      rw [hid]
      dsimp only
      split
      · exact List.mem_append_right _ (List.mem_singleton_self _)
      · split
        · exact List.mem_append_right _ (List.mem_singleton_self _)
        · split
          · exact List.mem_append_right _ (List.mem_singleton_self _)
          · exact List.mem_append_right _ (List.mem_singleton_self _)
    rcases hq : resend_sms pv s [] with ⟨res, tr⟩
    rw [hq] at hmem
    simp only at hmem
    cases res with
    | ok r => exact afterPhone_trace_mono hmem
    | error e => exact hmem
  · intro pv s tr
    exact ⟨rfl, rfl⟩

/-- Witness for C5's amended theorem: a closed client (no stored
number) is rejected without any request; the leased client's reuse run
issues the resend; `close` clears the fields. -/
theorem reuse_guard_is_phone_presence_witness :
    handle_phone_verification envOkPv pvCodeOk
        { apiKey := "key", service := none, country := none, maxPrice := none,
          activation_id := none, phone_number := none } true true =
      (.error (.exc "复用手机号失败：SMS 服务中没有已激活的手机号"),
        { apiKey := "key", service := none, country := none, maxPrice := none,
          activation_id := none, phone_number := none }, []) ∧
    SmsReq.setStatusReq 7 3 ∈
      (handle_phone_verification envOkPv pvCodeOk sLeased true true).2.2 ∧
    ((close pvCodeOk sLeased []).1).phone_number = none :=
  ⟨reuse_guard_is_phone_presence.1 envOkPv pvCodeOk _ true rfl rfl,
   reuse_guard_is_phone_presence.2.1 envOkPv pvCodeOk sLeased true 7 "79991112233"
     rfl rfl rfl,
   (reuse_guard_is_phone_presence.2.2 pvCodeOk sLeased []).1⟩

end Sora2

namespace Sora2

/-- Time bound for the polling loop: if every `getStatus` call takes at
most `D1` ms and every `setStatus` call at most `D2` ms, the loop
returns or raises by `startT + timeout + D1 + D2 + poll`. -/
theorem waitPoll_time_bound {pv : Provider} {id timeout poll startT D1 D2 : Nat}
    (hg : ∀ n, statusDur (pv.getStatusRes n) ≤ D1)
    (hs : ∀ n, pv.setStatusDur n ≤ D2) :
    ∀ {fuel cur : Nat} {tr : List SmsReq},
      cur ≤ startT + timeout + D1 + D2 + poll →
      (waitPoll pv id timeout poll startT fuel cur tr).2.1 ≤
        startT + timeout + D1 + D2 + poll := by
  intro fuel
  induction fuel with
  | zero => intro cur tr h; exact h
  | succ f ih =>
    intro cur tr h
    unfold waitPoll
    split
    · rename_i hguard
      cases hres : pv.getStatusRes tr.length with
      | raised d msg =>
        have hd := hg tr.length
        rw [hres] at hd
        simp only [statusDur] at hd
        simp only [hres]
        split
        · refine ih ?_
          omega
        · show cur + d ≤ startT + timeout + D1 + D2 + poll
          omega
      | parsed d st =>
        have hd := hg tr.length
        rw [hres] at hd
        simp only [statusDur] at hd
        simp only [hres]
        cases st with
        | waitCode =>
          refine ih ?_
          omega
        | waitRetry lc =>
          refine ih ?_
          omega
        | waitResend =>
          have hd2 := hs (tr ++ [SmsReq.getStatusReq id]).length
          refine ih ?_
          omega
        | cancelled =>
          show cur + d ≤ startT + timeout + D1 + D2 + poll
          omega
        | okCode c =>
          cases c with
          | none =>
            refine ih ?_
            omega
          | some code =>
            dsimp only
            split
            · refine ih ?_
              omega
            · show cur + d ≤ startT + timeout + D1 + D2 + poll
              omega
        | unknown raw =>
          refine ih ?_
          omega
    · show cur ≤ startT + timeout + D1 + D2 + poll
      exact h

end Sora2

namespace Sora2

/-- C6 amended: `wait_for_verification_code(timeout, poll)` returns or
raises by `startT + timeout + D1 + D2 + poll`, where `D1` bounds the
duration of a `get_status` call and `D2` that of the automatic resend's
`set_status` call; the claimed `timeout + one poll interval` bound (and
its 63000 ms instance) holds exactly when the provider calls take no
measurable time, since the elapsed-time guard is only re-checked at the
top of the loop. -/
theorem wait_for_verification_code_bounded :
    (∀ (pv : Provider) (s : SmsState) (timeout poll startT D1 D2 : Nat)
      (tr : List SmsReq),
      (∀ n, statusDur (pv.getStatusRes n) ≤ D1) →
      (∀ n, pv.setStatusDur n ≤ D2) →
      (wait_for_verification_code pv s timeout poll startT tr).2.1 ≤
        startT + timeout + D1 + D2 + poll) ∧
    (∀ (pv : Provider) (s : SmsState) (startT : Nat) (tr : List SmsReq),
      (∀ n, statusDur (pv.getStatusRes n) = 0) →
      (∀ n, pv.setStatusDur n = 0) →
      (wait_for_verification_code pv s 60000 3000 startT tr).2.1 ≤
        startT + 63000) := by
  have main : ∀ (pv : Provider) (s : SmsState) (timeout poll startT D1 D2 : Nat)
      (tr : List SmsReq),
      (∀ n, statusDur (pv.getStatusRes n) ≤ D1) →
      (∀ n, pv.setStatusDur n ≤ D2) →
      (wait_for_verification_code pv s timeout poll startT tr).2.1 ≤
        startT + timeout + D1 + D2 + poll := by
    intro pv s timeout poll startT D1 D2 tr hg hs
    unfold wait_for_verification_code
    cases s.activation_id with
    | none => simp only; omega
    | some id => exact waitPoll_time_bound hg hs (by omega)
  refine ⟨main, ?_⟩
  intro pv s startT tr hg hs
  have h := main pv s 60000 3000 startT 0 0 tr
    (fun n => le_of_eq (hg n)) (fun n => le_of_eq (hs n))
  omega

/-- Witness for C6's amended theorem: with instantaneous polls the wait
finishes by 63000 ms (it actually raises its timeout error at 60000 ms). -/
theorem wait_for_verification_code_bounded_witness :
    (wait_for_verification_code pvWaitCode sLeased 60000 3000 0 []).2.1 ≤ 63000 :=
  wait_for_verification_code_bounded.2 pvWaitCode sLeased 0 []
    (fun _ => rfl) (fun _ => rfl)

/-- Fixture: a provider whose `get_status` calls each take 30 s (well
inside the HTTP client's own 30 s timeout) and never deliver a code. -/
def pvSlowPoll : Provider :=
  { setStatusResp := fun _ => "ACCESS_READY"
    setStatusDur := fun _ => 0
    getStatusRes := fun _ => .parsed 30000 .waitCode
    getNumberResp := fun _ => .okNum 99 "79995550000" }

/-- C6 counterexample: with 30 s status polls, a
`wait_for_verification_code(60000, 3000)` call raises only at 66000 ms,
after `timeout + one poll interval` (63000 ms) has already passed. -/
theorem wait_for_verification_code_bound_counterexample :
    (wait_for_verification_code pvSlowPoll sLeased 60000 3000 0 []).2.1 = 66000 ∧
    60000 + 3000 < 66000 := by
  exact ⟨by rfl, by decide⟩

end Sora2

namespace Sora2

/-! ## `RegisterFlowService.register_one` (register_flow.py, lines 67-519)

At this layer each per-task service call is abstracted by its
observable interface: the temp-mail acquisition, the signup driver's
`register`, the onboarding step and the persistence call either succeed
or raise, and a `_handle_phone_verification` call either returns an
access token (storing a freshly leased activation id on the shared SMS
client when `reuse_phone=False`) or raises (likewise recording any
number it acquired first).  The shared `GrizzlySMSService` is the
`SmsState` of the detailed model above, and the flow's trace records
the terminal status requests (COMPLETE/CANCEL) plus anything `close`
issues; the verification sub-protocol's interior requests are covered
by the detailed handler model. -/

/-- Flow-level outcome of one `_handle_phone_verification` call. -/
inductive PhoneOutcome
  | ok (newActivation : Option Nat) (accessToken : String)
  | fail (newActivation : Option Nat)
deriving DecidableEq, Repr

/-- The activation id a phone-verification call stored, if any. -/
def phoneActs : PhoneOutcome → Option Nat
  | .ok a _ => a
  | .fail a => a

/-- Environment of one batch member. -/
structure TaskEnv where
  emailOk : Bool
  registerOk : Bool
  onboardOk : Bool
  phone : PhoneOutcome
  persistOk : Bool
  email : String
deriving DecidableEq, Repr

/-- Store a freshly leased number on the client, if one was acquired. -/
def phoneLease (s : SmsState) : Option Nat → SmsState
  | some id => { s with activation_id := some id, phone_number := some "leased" }
  | none => s

/-- Interpretation of a `_handle_phone_verification` call at flow
granularity: on success with `setComplete` the COMPLETE status (6) is
requested for the stored activation (register_service.py, lines
1172-1176); `set_complete` leaves `activation_id` in place. -/
def phoneStep (s : SmsState) (out : PhoneOutcome) (setComplete : Bool)
    (tr : List SmsReq) : Except Unit String × SmsState × List SmsReq :=
  match out with
  | .ok newAct tok =>
    match (phoneLease s newAct).activation_id with
    | some id =>
      (.ok tok, phoneLease s newAct,
        if setComplete then tr ++ [SmsReq.setStatusReq id 6] else tr)
    | none => (.ok tok, phoneLease s newAct, tr)
  | .fail newAct => (.error (), phoneLease s newAct, tr)

/-- Result of `register_one`. -/
structure FlowOut where
  result : Except Unit (List String × Nat)
  trace : List SmsReq
  membersStarted : Nat
  phoneCalls : List Nat
deriving Repr

/-- Result of one 2nd/3rd batch-member iteration. -/
structure MemberOut where
  success : Option String
  shared : SmsState
  trace : List SmsReq
  phoneCalled : Bool
deriving DecidableEq, Repr

/-- The `except` branch of the loop body (register_flow.py, lines
438-446): the shared SMS client is closed (cancelling any active
number) and the loop breaks. -/
def memberAbort (pv : Provider) (shared : SmsState) (tr : List SmsReq)
    (pc : Bool) : MemberOut :=
  { success := none, shared := (close pv shared tr).1,
    trace := (close pv shared tr).2, phoneCalled := pc }

/-- One 2nd/3rd batch member (the loop body, register_flow.py, lines
328-446).  Unlike the first task, the `_handle_sora_onboarding` call at
line 367 is not wrapped in its own try/except, so an onboarding failure
aborts the member. -/
def batchMember (pv : Provider) (e : TaskEnv) (shared : SmsState)
    (isLast : Bool) (tr : List SmsReq) : MemberOut :=
  if !e.emailOk then memberAbort pv shared tr false
  else if !e.registerOk then memberAbort pv shared tr false
  else if !e.onboardOk then memberAbort pv shared tr false
  else
    match phoneStep shared e.phone isLast tr with
    | (.error _, s2, tr2) => memberAbort pv s2 tr2 true
    | (.ok tok, s2, tr2) =>
      if tok == "" then memberAbort pv s2 tr2 true
      else if !e.persistOk then memberAbort pv s2 tr2 true
      else { success := some e.email, shared := s2, trace := tr2, phoneCalled := true }

/-- `RegisterFlowService.register_one(binding_rule)` with the batch
loop unrolled to its fixed three members (`e0` drives the first task,
`e1` and `e2` the loop members).  The first task's onboarding failure
is caught and ignored (lines 231-237); every failure path closes the
SMS client via the `except` block, and the `finally` block closes it
again only when an activation id is still stored (lines 496-519). -/
def register_one (pv : Provider) (e0 e1 e2 : TaskEnv) (binding : String)
    (s0 : SmsState) : FlowOut :=
  if !e0.emailOk then
    { result := .error (), trace := (close pv s0 []).2,
      membersStarted := 1, phoneCalls := [] }
  else if !e0.registerOk then
    { result := .error (), trace := (close pv s0 []).2,
      membersStarted := 1, phoneCalls := [] }
  else
    match phoneStep s0 e0.phone (binding == "1绑1") [] with
    | (.error _, s1, tr1) =>
      { result := .error (), trace := (close pv s1 tr1).2,
        membersStarted := 1, phoneCalls := [0] }
    | (.ok tok, s1, tr1) =>
      if tok == "" then
        { result := .error (), trace := (close pv s1 tr1).2,
          membersStarted := 1, phoneCalls := [0] }
      else if !e0.persistOk then
        { result := .error (), trace := (close pv s1 tr1).2,
          membersStarted := 1, phoneCalls := [0] }
      else if binding == "1绑3" then
        match batchMember pv e1 s1 false tr1 with
        | m1 =>
          match m1.success with
          | none =>
            { result := .ok ([e0.email], 1),
              trace := (close pv m1.shared m1.trace).2,
              membersStarted := 2,
              phoneCalls := [0] ++ (if m1.phoneCalled then [1] else []) }
          | some em1 =>
            match batchMember pv e2 m1.shared true m1.trace with
            | m2 =>
              match m2.success with
              | none =>
                { result := .ok ([e0.email, em1], 2),
                  trace := (close pv m2.shared m2.trace).2,
                  membersStarted := 3,
                  phoneCalls := [0, 1] ++ (if m2.phoneCalled then [2] else []) }
              | some em2 =>
                { result := .ok ([e0.email, em1, em2], 3),
                  trace := (close pv m2.shared m2.trace).2,
                  membersStarted := 3, phoneCalls := [0, 1, 2] }
      else
        { result := .ok ([e0.email], 1),
          trace := if s1.activation_id.isSome then (close pv s1 tr1).2 else tr1,
          membersStarted := 1, phoneCalls := [0] }

end Sora2

namespace Sora2

theorem set_status_trace_of_some {pv : Provider} {s : SmsState} {st : Nat}
    {tr : List SmsReq} {id : Nat} (h : s.activation_id = some id) :
    (set_status pv s st tr).2 = tr ++ [SmsReq.setStatusReq id st] := by
  unfold set_status
  rw [h]
  dsimp only
  split
  · rfl
  · split
    · rfl
    · split <;> rfl

theorem close_trace_of_some {pv : Provider} {s : SmsState} {tr : List SmsReq}
    {id : Nat} (h : s.activation_id = some id) :
    (close pv s tr).2 = tr ++ [SmsReq.setStatusReq id 8] := by
  unfold close
  rw [h]
  simp only [Option.isSome_some, if_true]
  rw [cancel_trace_eq, set_status_trace_of_some h]

theorem close_trace_of_none {pv : Provider} {s : SmsState} {tr : List SmsReq}
    (h : s.activation_id = none) : (close pv s tr).2 = tr := by
  unfold close
  rw [h]
  rfl

/-- Fixture: a batch member environment in which every step succeeds
and the verification leases activation id 7. -/
def envTaskOk : TaskEnv :=
  { emailOk := true, registerOk := true, onboardOk := true
    phone := .ok (some 7) "tok", persistOk := true, email := "a1@x.com" }

/-- Fixture: a 2nd/3rd member environment in which every step succeeds
(the verification reuses the already-leased number). -/
def envMemberOk : TaskEnv :=
  { emailOk := true, registerOk := true, onboardOk := true
    phone := .ok none "tok", persistOk := true, email := "a2@x.com" }

/-- Fixture: a freshly constructed SMS client, as built at
register_flow.py lines 196-201. -/
def s0Flow : SmsState :=
  { apiKey := "key", service := some "dr", country := some "151"
    maxPrice := some "0.025", activation_id := none, phone_number := none }

/-- C4 counterexample: a fully successful 1绑1 run requests COMPLETE
(status 6) and then also CANCEL (status 8) for its lease — the
`finally` block closes the SMS client because `set_complete` never
cleared `activation_id`, and `close` cancels — so a successful run does
send a cancel request for its lease. -/
theorem one_to_one_success_sends_cancel :
    (register_one pvCodeOk envTaskOk envMemberOk envMemberOk "1绑1" s0Flow).result =
      .ok (["a1@x.com"], 1) ∧
    (register_one pvCodeOk envTaskOk envMemberOk envMemberOk "1绑1" s0Flow).trace =
      [SmsReq.setStatusReq 7 6, SmsReq.setStatusReq 7 8] :=
  ⟨rfl, rfl⟩

end Sora2

namespace Sora2

theorem register_one_11_trace (pv : Provider) (e0 e1 e2 : TaskEnv) (s0 : SmsState)
    (h0 : s0.activation_id = none)
    (hreal : ∀ t, e0.phone ≠ .ok none t) :
    (register_one pv e0 e1 e2 "1绑1" s0).trace =
      if e0.emailOk && e0.registerOk then
        match e0.phone with
        | .ok (some i) _ => [SmsReq.setStatusReq i 6, SmsReq.setStatusReq i 8]
        | .fail (some i) => [SmsReq.setStatusReq i 8]
        | _ => []
      else [] := by
  have hb1 : (("1绑1" : String) == "1绑1") = true := by rfl
  have hb3 : (("1绑1" : String) == "1绑3") = false := by rfl
  rcases e0 with ⟨em, reg, onb, ph, per, mail⟩
  cases em with
  | false => simp [register_one, close_trace_of_none h0]
  | true =>
    cases reg with
    | false => simp [register_one, close_trace_of_none h0]
    | true =>
      cases ph with
      | ok act tok =>
        cases act with
        | none => exact absurd rfl (hreal tok)
        | some i =>
          have hs1 : (phoneLease s0 (some i)).activation_id = some i := rfl
          cases hper : per <;> cases htok : tok == "" <;>
            simp [register_one, phoneStep, phoneLease, hb1, hb3, htok] <;>
            rw [close_trace_of_some rfl] <;> simp
      | fail act =>
        cases act with
        | none => simp [register_one, phoneStep, phoneLease, hb1, hb3,
            close_trace_of_none h0]
        | some i =>
          simp [register_one, phoneStep, phoneLease, hb1, hb3]
          rw [close_trace_of_some rfl]
          rfl

end Sora2

namespace Sora2

theorem register_one_11_result_ok (pv : Provider) (e0 e1 e2 : TaskEnv)
    (s0 : SmsState) (l : List String) (n : Nat)
    (h : (register_one pv e0 e1 e2 "1绑1" s0).result = .ok (l, n)) :
    e0.emailOk = true ∧ e0.registerOk = true ∧ ∃ a t, e0.phone = .ok a t := by
  rcases e0 with ⟨em, reg, onb, ph, per, mail⟩
  cases em with
  | false => simp [register_one] at h
  | true =>
    cases reg with
    | false => simp [register_one] at h
    | true =>
      cases ph with
      | ok act tok => exact ⟨rfl, rfl, act, tok, rfl⟩
      | fail act => simp [register_one, phoneStep] at h

/-- C4 amended: in every 1绑1 run of `register_one` from a fresh SMS
client, COMPLETE (status 6) is requested iff the phone-verification
step ran and succeeded (leasing a number), and CANCEL (status 8) is
requested iff a number was leased — after failure *and equally after
success*, because the `finally` cleanup closes the client while
`activation_id` is still set; a successful run's status requests are
exactly COMPLETE followed by CANCEL, so a successful run does send a
cancel request for its lease. -/
theorem one_to_one_terminal_requests :
    ∀ (pv : Provider) (e0 e1 e2 : TaskEnv) (s0 : SmsState),
      s0.activation_id = none →
      (∀ t, e0.phone ≠ .ok none t) →
      ((∃ i, SmsReq.setStatusReq i 6 ∈ (register_one pv e0 e1 e2 "1绑1" s0).trace) ↔
        e0.emailOk = true ∧ e0.registerOk = true ∧ ∃ i t, e0.phone = .ok (some i) t) ∧
      ((∃ i, SmsReq.setStatusReq i 8 ∈ (register_one pv e0 e1 e2 "1绑1" s0).trace) ↔
        e0.emailOk = true ∧ e0.registerOk = true ∧ ∃ i, phoneActs e0.phone = some i) ∧
      (∀ l n, (register_one pv e0 e1 e2 "1绑1" s0).result = .ok (l, n) →
        ∃ i, (register_one pv e0 e1 e2 "1绑1" s0).trace =
          [SmsReq.setStatusReq i 6, SmsReq.setStatusReq i 8]) := by
  intro pv e0 e1 e2 s0 h0 hreal
  have htr := register_one_11_trace pv e0 e1 e2 s0 h0 hreal
  rw [htr]
  refine ⟨?_, ?_, ?_⟩
  · cases hem : e0.emailOk <;> cases hreg : e0.registerOk <;> simp [hem, hreg]
    cases hph : e0.phone with
    | ok act tok =>
      cases act with
      | none => exact absurd hph (hreal tok)
      | some j => simp
    | fail act =>
      cases act with
      | none => simp
      | some j => simp
  · cases hem : e0.emailOk <;> cases hreg : e0.registerOk <;> simp [hem, hreg]
    cases hph : e0.phone with
    | ok act tok =>
      cases act with
      | none => exact absurd hph (hreal tok)
      | some j => simp [phoneActs]
    | fail act =>
      cases act with
      | none => simp [phoneActs]
      | some j => simp [phoneActs]
  · intro l n h
    obtain ⟨hem, hreg, a, t, hp⟩ := register_one_11_result_ok pv e0 e1 e2 s0 l n h
    cases a with
    | none => exact absurd hp (hreal t)
    | some i =>
      refine ⟨i, ?_⟩
      simp [hem, hreg, hp]

end Sora2

namespace Sora2

/-- Witness for C4's amended theorem at a fully successful concrete
1绑1 run: its status requests are COMPLETE then CANCEL. -/
theorem one_to_one_terminal_requests_witness :
    ∃ i, (register_one pvCodeOk envTaskOk envMemberOk envMemberOk "1绑1" s0Flow).trace =
      [SmsReq.setStatusReq i 6, SmsReq.setStatusReq i 8] :=
  (one_to_one_terminal_requests pvCodeOk envTaskOk envMemberOk envMemberOk s0Flow rfl
    (by intro t; simp [envTaskOk])).2.2 ["a1@x.com"] 1 rfl

/-- Does some step of this batch member fail? -/
def memberFailsB (e : TaskEnv) : Bool :=
  !e.emailOk || !e.registerOk || !e.onboardOk ||
  (match e.phone with
   | .fail _ => true
   | .ok _ t => t == "") || !e.persistOk

/-- A realistic 2nd/3rd-member verification outcome: a reuse call never
stores a fresh activation id (the re-acquisition call site raises, see
`callGetNumber`), and a successful call never returns an empty access
token (the handler raises first). -/
def reuseRealistic (e : TaskEnv) : Bool :=
  match e.phone with
  | .ok a t => a == none && t != ""
  | .fail a => a == none

theorem memberAbort_spec {pv : Provider} {s : SmsState} {tr : List SmsReq}
    {pc : Bool} :
    (memberAbort pv s tr pc).success = none ∧
    (memberAbort pv s tr pc).shared.activation_id = none ∧
    ∀ id, s.activation_id = some id →
      SmsReq.setStatusReq id 8 ∈ (memberAbort pv s tr pc).trace := by
  refine ⟨rfl, rfl, ?_⟩
  intro id hid
  show SmsReq.setStatusReq id 8 ∈ (close pv s tr).2
  rw [close_trace_of_some hid]
  exact List.mem_append_right _ (List.mem_singleton_self _)

theorem batchMember_fail_spec {pv : Provider} {e : TaskEnv} {s : SmsState}
    {isLast : Bool} {tr : List SmsReq}
    (hr : reuseRealistic e = true) (hf : memberFailsB e = true) :
    (batchMember pv e s isLast tr).success = none ∧
    (batchMember pv e s isLast tr).shared.activation_id = none ∧
    ∀ id, s.activation_id = some id →
      SmsReq.setStatusReq id 8 ∈ (batchMember pv e s isLast tr).trace := by
  rcases e with ⟨em, reg, onb, ph, per, mail⟩
  cases em with
  | false =>
    simp only [batchMember, Bool.not_false, if_true]
    exact memberAbort_spec
  | true =>
    cases reg with
    | false =>
      simp only [batchMember, Bool.not_false, Bool.not_true,
        Bool.false_eq_true, if_false, if_true]
      exact memberAbort_spec
    | true =>
      cases onb with
      | false =>
        simp only [batchMember, Bool.not_false, Bool.not_true,
          Bool.false_eq_true, if_false, if_true]
        exact memberAbort_spec
      | true =>
        cases ph with
        | fail act =>
          simp only [reuseRealistic, beq_iff_eq] at hr
          subst hr
          simp only [batchMember, Bool.not_true, Bool.false_eq_true,
            if_false, phoneStep, phoneLease]
          exact memberAbort_spec
        | ok act tok =>
          simp only [reuseRealistic, Bool.and_eq_true, beq_iff_eq,
            bne_iff_ne] at hr
          obtain ⟨rfl, htok⟩ := hr
          have hemp : (tok == "") = false := by
            simpa using htok
          cases per with
          | true =>
            exfalso
            have : (tok == "") = true := by
              simpa [memberFailsB] using hf
            rw [hemp] at this
            cases this
          | false =>
            simp only [batchMember, Bool.not_true, Bool.false_eq_true,
              if_false, phoneStep, phoneLease]
            cases hact : s.activation_id with
            | none =>
              simp only [hemp, Bool.false_eq_true, if_false,
                Bool.not_false, if_true]
              exact ⟨memberAbort_spec.1, memberAbort_spec.2.1,
                fun id hid => Option.noConfusion hid⟩
            | some j =>
              simp only [hemp, Bool.false_eq_true, if_false,
                Bool.not_false, if_true]
              exact ⟨memberAbort_spec.1, memberAbort_spec.2.1,
                fun id hid => memberAbort_spec.2.2 id (hact.trans hid)⟩

theorem batchMember_ok_first {pv : Provider} {e : TaskEnv} {s : SmsState}
    {tr : List SmsReq}
    (hr : reuseRealistic e = true) (hok : memberFailsB e = false) :
    batchMember pv e s false tr =
      { success := some e.email, shared := s, trace := tr, phoneCalled := true } := by
  rcases e with ⟨em, reg, onb, ph, per, mail⟩
  simp only [memberFailsB, Bool.or_eq_false_iff, Bool.not_eq_false'] at hok
  obtain ⟨⟨⟨⟨hem, hreg⟩, honb⟩, hph⟩, hper⟩ := hok
  subst hem; subst hreg; subst honb; subst hper
  cases ph with
  | fail act => simp at hph
  | ok act tok =>
    simp only [reuseRealistic, Bool.and_eq_true, beq_iff_eq, bne_iff_ne] at hr
    obtain ⟨rfl, htok⟩ := hr
    have hemp : (tok == "") = false := by
      simpa using hph
    simp only [batchMember, Bool.not_true, Bool.false_eq_true, if_false,
      phoneStep, phoneLease]
    cases hact : s.activation_id with
    | none => simp only [hemp, Bool.false_eq_true, if_false, Bool.not_false, if_true]
    | some j => simp only [hemp, Bool.false_eq_true, if_false, Bool.not_false, if_true]

end Sora2

namespace Sora2

/-- C1: in a 1绑3 batch of `register_one` whose first task fully
succeeds (leasing activation id `i`), if the 2nd member fails the call
still returns successfully with exactly the first account (count 1),
the shared lease is released by a CANCEL request, and the 3rd member is
never attempted; if the 2nd member succeeds and the 3rd fails, the call
returns the two completed accounts (count 2) and the shared lease is
likewise cancelled. -/
theorem one_to_three_partial_batch :
    ∀ (pv : Provider) (e0 e1 e2 : TaskEnv) (s0 : SmsState) (i : Nat) (t : String),
      s0.activation_id = none →
      e0.emailOk = true → e0.registerOk = true →
      e0.phone = .ok (some i) t → (t == "") = false → e0.persistOk = true →
      reuseRealistic e1 = true → reuseRealistic e2 = true →
      ((memberFailsB e1 = true →
        (register_one pv e0 e1 e2 "1绑3" s0).result = .ok ([e0.email], 1) ∧
        SmsReq.setStatusReq i 8 ∈ (register_one pv e0 e1 e2 "1绑3" s0).trace ∧
        (register_one pv e0 e1 e2 "1绑3" s0).membersStarted = 2) ∧
      (memberFailsB e1 = false → memberFailsB e2 = true →
        (register_one pv e0 e1 e2 "1绑3" s0).result = .ok ([e0.email, e1.email], 2) ∧
        SmsReq.setStatusReq i 8 ∈ (register_one pv e0 e1 e2 "1绑3" s0).trace ∧
        (register_one pv e0 e1 e2 "1绑3" s0).membersStarted = 3)) := by
  intro pv e0 e1 e2 s0 i t h0 hem hreg hph ht hper hr1 hr2
  have hb1 : (("1绑3" : String) == "1绑1") = false := by rfl
  have hb3 : (("1绑3" : String) == "1绑3") = true := by rfl
  have hl : (phoneLease s0 (some i)).activation_id = some i := rfl
  refine ⟨?_, ?_⟩
  · intro hf1
    obtain ⟨hs, hact, hmem⟩ :=
      @batchMember_fail_spec pv e1 (phoneLease s0 (some i)) false [] hr1 hf1
    simp only [register_one, hem, hreg, hph, hper, ht, phoneStep, hl, hb1, hb3,
      Bool.not_true, Bool.not_false, Bool.false_eq_true, if_false, if_true, hs,
      close_trace_of_none hact]
    exact ⟨trivial, hmem i rfl, trivial⟩
  · intro hok1 hf2
    have hm1 := @batchMember_ok_first pv e1 (phoneLease s0 (some i)) [] hr1 hok1
    obtain ⟨hs, hact, hmem⟩ :=
      @batchMember_fail_spec pv e2 (phoneLease s0 (some i)) true [] hr2 hf2
    simp only [register_one, hem, hreg, hph, hper, ht, phoneStep, hl, hb1, hb3,
      Bool.not_true, Bool.not_false, Bool.false_eq_true, if_false, if_true, hm1,
      hs, close_trace_of_none hact]
    exact ⟨trivial, hmem i rfl, trivial⟩

end Sora2

namespace Sora2

/-- Fixture: a 2nd/3rd-member environment whose only failing step is
the onboarding handle selection. -/
def envMemberOnboardFail : TaskEnv :=
  { envMemberOk with onboardOk := false }

/-- Witness for C1 at a concrete batch: the 2nd member fails (its
onboarding step), the batch returns the first account only, cancels the
shared lease, and never starts the 3rd member. -/
theorem one_to_three_partial_batch_witness :
    (register_one pvCodeOk envTaskOk envMemberOnboardFail envMemberOk "1绑3" s0Flow).result =
      .ok (["a1@x.com"], 1) ∧
    SmsReq.setStatusReq 7 8 ∈
      (register_one pvCodeOk envTaskOk envMemberOnboardFail envMemberOk "1绑3" s0Flow).trace ∧
    (register_one pvCodeOk envTaskOk envMemberOnboardFail envMemberOk "1绑3" s0Flow).membersStarted = 2 :=
  (one_to_three_partial_batch pvCodeOk envTaskOk envMemberOnboardFail envMemberOk
    s0Flow 7 "tok" rfl rfl rfl rfl rfl rfl rfl rfl).1 rfl

/-- C8 counterexample: in a 1绑3 batch whose 2nd member fails only its
onboarding step, that member is aborted — phone verification runs for
the first task only (`phoneCalls = [0]`), no account is produced for
the member, and the 3rd member is never started. -/
theorem onboarding_failure_aborts_member :
    (register_one pvCodeOk envTaskOk envMemberOnboardFail envMemberOk "1绑3" s0Flow).result =
      .ok (["a1@x.com"], 1) ∧
    (register_one pvCodeOk envTaskOk envMemberOnboardFail envMemberOk "1绑3" s0Flow).phoneCalls = [0] ∧
    (register_one pvCodeOk envTaskOk envMemberOnboardFail envMemberOk "1绑3" s0Flow).membersStarted = 2 :=
  ⟨rfl, rfl, rfl⟩

/-- C8 amended: the onboarding step is best-effort for the *first* task
only — `register_one` never consults the first task's onboarding
outcome — while for the 2nd/3rd batch members the call is unguarded, so
an onboarding failure aborts the member before phone verification. -/
theorem onboarding_tolerance_first_task_only :
    (∀ (pv : Provider) (em reg : Bool) (ph : PhoneOutcome) (per b : Bool)
      (mail : String) (e1 e2 : TaskEnv) (bind : String) (s0 : SmsState),
      register_one pv ⟨em, reg, true, ph, per, mail⟩ e1 e2 bind s0 =
        register_one pv ⟨em, reg, b, ph, per, mail⟩ e1 e2 bind s0) ∧
    (∀ (pv : Provider) (e : TaskEnv) (s : SmsState) (isLast : Bool)
      (tr : List SmsReq),
      e.emailOk = true → e.registerOk = true → e.onboardOk = false →
      (batchMember pv e s isLast tr).success = none ∧
      (batchMember pv e s isLast tr).phoneCalled = false) := by
  constructor
  · intro pv em reg ph per b mail e1 e2 bind s0
    rfl
  · intro pv e s isLast tr hem hreg honb
    simp only [batchMember, hem, hreg, honb, Bool.not_true, Bool.not_false,
      Bool.false_eq_true, if_false, if_true]
    exact ⟨rfl, rfl⟩

/-- Witness for C8's amended theorem: a first task with failed
onboarding produces the same run as one with successful onboarding, and
a concrete 2nd member with failed onboarding is aborted without a
phone-verification call. -/
theorem onboarding_tolerance_first_task_only_witness :
    register_one pvCodeOk ⟨true, true, true, .ok (some 7) "tok", true, "a1@x.com"⟩
        envMemberOk envMemberOk "1绑1" s0Flow =
      register_one pvCodeOk ⟨true, true, false, .ok (some 7) "tok", true, "a1@x.com"⟩
        envMemberOk envMemberOk "1绑1" s0Flow ∧
    (batchMember pvCodeOk envMemberOnboardFail s0Flow false []).phoneCalled = false :=
  ⟨onboarding_tolerance_first_task_only.1 pvCodeOk true true (.ok (some 7) "tok")
      true false "a1@x.com" envMemberOk envMemberOk "1绑1" s0Flow,
   (onboarding_tolerance_first_task_only.2 pvCodeOk envMemberOnboardFail s0Flow
      false [] rfl rfl rfl).2⟩

end Sora2

namespace Sora2

/-! ## `OpenAIRegister._generate_password`
(register_service.py, lines 67-89) -/

/-- The `upper` alphabet: `"ABCDEFGHJKLMNPQRSTUVWXYZ"` (no `I`, `O`). -/
def pwUpper : List Char :=
  ['A', 'B', 'C', 'D', 'E', 'F', 'G', 'H', 'J', 'K', 'L', 'M',
   'N', 'P', 'Q', 'R', 'S', 'T', 'U', 'V', 'W', 'X', 'Y', 'Z']

/-- The `lower` alphabet: `"abcdefghjkmnpqrstuvwxyz"` (no `i`, `l`, `o`). -/
def pwLower : List Char :=
  ['a', 'b', 'c', 'd', 'e', 'f', 'g', 'h', 'j', 'k', 'm', 'n',
   'p', 'q', 'r', 's', 't', 'u', 'v', 'w', 'x', 'y', 'z']

/-- The `digits` alphabet: `"23456789"` (no `0`, `1`). -/
def pwDigits : List Char := ['2', '3', '4', '5', '6', '7', '8', '9']

/-- The `specials` alphabet: `"!@#$%^&*"`. -/
def pwSpecials : List Char := ['!', '@', '#', '$', '%', '^', '&', '*']

/-- `all_chars = upper + lower + digits` (no specials). -/
def pwAll : List Char := pwUpper ++ pwLower ++ pwDigits

/-- `random.choice(l)`, with the random draw modelled as an oracle
index reduced modulo the list length. -/
def pick (l : List Char) (i : Nat) : Char := l.getD (i % l.length) 'A'

/-- The password before `random.shuffle`: one pick from each of the
four alphabets, then ten picks from `all_chars`. -/
def preShuffle (r : Nat → Nat) : List Char :=
  [pick pwUpper (r 0), pick pwLower (r 1), pick pwDigits (r 2),
   pick pwSpecials (r 3)] ++
  (List.range 10).map fun k => pick pwAll (r (4 + k))

/-- The ambiguous characters the claim says never occur. -/
def ambiguousChars : List Char := ['I', 'O', 'i', 'l', 'o', '0', '1']

theorem pick_mem {l : List Char} (hl : l ≠ []) (i : Nat) : pick l i ∈ l := by
  unfold pick
  have hlen : 0 < l.length := List.length_pos.mpr hl
  rw [List.getD_eq_getElem l 'A' (Nat.mod_lt i hlen)]
  exact l.getElem_mem (Nat.mod_lt i hlen)

/-- C10: every `_generate_password` result — any permutation (the
`random.shuffle`) of the pre-shuffle list, for any random draws — has
exactly 14 characters, contains at least one character from each of the
four alphabets, and contains none of the ambiguous characters
`I O i l o 0 1`. -/
theorem generate_password_shape :
    ∀ (r : Nat → Nat) (p : List Char), p.Perm (preShuffle r) →
      p.length = 14 ∧
      (∃ c ∈ p, c ∈ pwUpper) ∧ (∃ c ∈ p, c ∈ pwLower) ∧
      (∃ c ∈ p, c ∈ pwDigits) ∧ (∃ c ∈ p, c ∈ pwSpecials) ∧
      ∀ c ∈ p, c ∉ ambiguousChars := by
  intro r p hp
  have hmem : ∀ c, c ∈ p ↔ c ∈ preShuffle r := fun c => hp.mem_iff
  have hlen : p.length = 14 := by
    rw [hp.length_eq]
    simp [preShuffle]
  refine ⟨hlen, ?_, ?_, ?_, ?_, ?_⟩
  · exact ⟨pick pwUpper (r 0), (hmem _).mpr (by simp [preShuffle]),
      pick_mem (by decide) _⟩
  · exact ⟨pick pwLower (r 1), (hmem _).mpr (by simp [preShuffle]),
      pick_mem (by decide) _⟩
  · exact ⟨pick pwDigits (r 2), (hmem _).mpr (by simp [preShuffle]),
      pick_mem (by decide) _⟩
  · exact ⟨pick pwSpecials (r 3), (hmem _).mpr (by simp [preShuffle]),
      pick_mem (by decide) _⟩
  · intro c hc
    have hpre : c ∈ preShuffle r := (hmem c).mp hc
    simp only [preShuffle, List.mem_append, List.mem_cons,
      List.not_mem_nil, or_false, List.mem_map, List.mem_range] at hpre
    have hclass : c ∈ pwUpper ∨ c ∈ pwLower ∨ c ∈ pwDigits ∨
        c ∈ pwSpecials ∨ c ∈ pwAll := by
      rcases hpre with ((rfl | rfl | rfl | rfl) | ⟨k, _, rfl⟩)
      · exact Or.inl (pick_mem (by decide) _)
      · exact Or.inr (Or.inl (pick_mem (by decide) _))
      · exact Or.inr (Or.inr (Or.inl (pick_mem (by decide) _)))
      · exact Or.inr (Or.inr (Or.inr (Or.inl (pick_mem (by decide) _))))
      · exact Or.inr (Or.inr (Or.inr (Or.inr (pick_mem (by decide) _))))
    have h1 : ∀ d ∈ pwUpper, d ∉ ambiguousChars := by decide
    have h2 : ∀ d ∈ pwLower, d ∉ ambiguousChars := by decide
    have h3 : ∀ d ∈ pwDigits, d ∉ ambiguousChars := by decide
    have h4 : ∀ d ∈ pwSpecials, d ∉ ambiguousChars := by decide
    have h5 : ∀ d ∈ pwAll, d ∉ ambiguousChars := by decide
    rcases hclass with h | h | h | h | h
    exacts [h1 c h, h2 c h, h3 c h, h4 c h, h5 c h]

/-- Witness for C10 at concrete draws (`r = 0` everywhere, identity
shuffle). -/
theorem generate_password_shape_witness :
    (preShuffle fun _ => 0).length = 14 ∧
    (∃ c ∈ preShuffle fun _ => 0, c ∈ pwUpper) ∧
    (∃ c ∈ preShuffle fun _ => 0, c ∈ pwLower) ∧
    (∃ c ∈ preShuffle fun _ => 0, c ∈ pwDigits) ∧
    (∃ c ∈ preShuffle fun _ => 0, c ∈ pwSpecials) ∧
    ∀ c ∈ preShuffle fun _ => 0, c ∉ ambiguousChars :=
  generate_password_shape (fun _ => 0) (preShuffle fun _ => 0) (List.Perm.refl _)

end Sora2
